import Mathlib

/-!
Shallow embedding of the memoization layer of `es_connector.py`:
the `cacheable` decorator (lines 31-85), which derives a cache file
name from a wrapped call's keyword arguments and wraps the call in a
persistent pickle-file cache.

The embedding translates the decorator's key-derivation pipeline
(normalize dates, flatten the filter parameters into `(field, value)`
pairs, sort, md5-hash the Python `str(...)` rendering) and its
hit/miss state machine over an explicit store.
-/

namespace EsConnector

/-! ### MD5 (hashlib.md5, used at line 69 of the source)

A direct implementation of the MD5 digest over byte lists, with 32-bit
words represented as `Nat` reduced mod `2 ^ 32`.  The source feeds
the UTF-8 encoding of the sorted pair list to `hashlib.md5` and keeps
the lowercase hex digest. -/

namespace Md5

def mask32 : Nat := 4294967295

def add32 (a b : Nat) : Nat := (a + b) % 4294967296

def not32 (x : Nat) : Nat := x ^^^ mask32

def rotl32 (x s : Nat) : Nat := ((x <<< s) ||| (x >>> (32 - s))) &&& mask32

/-- The 64 round constants `floor(2^32 * |sin(i+1)|)` of MD5. -/
def kTable : List Nat :=
  [0xd76aa478, 0xe8c7b756, 0x242070db, 0xc1bdceee,
   0xf57c0faf, 0x4787c62a, 0xa8304613, 0xfd469501,
   0x698098d8, 0x8b44f7af, 0xffff5bb1, 0x895cd7be,
   0x6b901122, 0xfd987193, 0xa679438e, 0x49b40821,
   0xf61e2562, 0xc040b340, 0x265e5a51, 0xe9b6c7aa,
   0xd62f105d, 0x02441453, 0xd8a1e681, 0xe7d3fbc8,
   0x21e1cde6, 0xc33707d6, 0xf4d50d87, 0x455a14ed,
   0xa9e3e905, 0xfcefa3f8, 0x676f02d9, 0x8d2a4c8a,
   0xfffa3942, 0x8771f681, 0x6d9d6122, 0xfde5380c,
   0xa4beea44, 0x4bdecfa9, 0xf6bb4b60, 0xbebfbc70,
   0x289b7ec6, 0xeaa127fa, 0xd4ef3085, 0x04881d05,
   0xd9d4d039, 0xe6db99e5, 0x1fa27cf8, 0xc4ac5665,
   0xf4292244, 0x432aff97, 0xab9423a7, 0xfc93a039,
   0x655b59c3, 0x8f0ccc92, 0xffeff47d, 0x85845dd1,
   0x6fa87e4f, 0xfe2ce6e0, 0xa3014314, 0x4e0811a1,
   0xf7537e82, 0xbd3af235, 0x2ad7d2bb, 0xeb86d391]

/-- The per-round left-rotation amounts of MD5. -/
def sTable : List Nat :=
  [7, 12, 17, 22, 7, 12, 17, 22, 7, 12, 17, 22, 7, 12, 17, 22,
   5, 9, 14, 20, 5, 9, 14, 20, 5, 9, 14, 20, 5, 9, 14, 20,
   4, 11, 16, 23, 4, 11, 16, 23, 4, 11, 16, 23, 4, 11, 16, 23,
   6, 10, 15, 21, 6, 10, 15, 21, 6, 10, 15, 21, 6, 10, 15, 21]

def auxF (b c d : Nat) : Nat := (b &&& c) ||| (not32 b &&& d)

def auxG (b c d : Nat) : Nat := (d &&& b) ||| (not32 d &&& c)

def auxH (b c d : Nat) : Nat := b ^^^ c ^^^ d

def auxI (b c d : Nat) : Nat := c ^^^ (b ||| not32 d)

structure State where
  a : Nat
  b : Nat
  c : Nat
  d : Nat
  deriving DecidableEq, Repr

def roundStep (w : Nat → Nat) (st : State) (i : Nat) : State :=
  let f :=
    if i < 16 then auxF st.b st.c st.d
    else if i < 32 then auxG st.b st.c st.d
    else if i < 48 then auxH st.b st.c st.d
    else auxI st.b st.c st.d
  let g :=
    if i < 16 then i
    else if i < 32 then (5 * i + 1) % 16
    else if i < 48 then (3 * i + 5) % 16
    else (7 * i) % 16
  let rotated := rotl32 (add32 (add32 (add32 st.a f) (kTable.getD i 0)) (w g)) (sTable.getD i 0)
  ⟨st.d, add32 st.b rotated, st.b, st.c⟩

/-- Process one 64-byte block (given as a byte list), updating the state. -/
def processBlock (st : State) (block : List Nat) : State :=
  let w := fun j => block.getD (4 * j) 0 + 256 * block.getD (4 * j + 1) 0 +
    65536 * block.getD (4 * j + 2) 0 + 16777216 * block.getD (4 * j + 3) 0
  let r := (List.range 64).foldl (roundStep w) st
  ⟨add32 st.a r.a, add32 st.b r.b, add32 st.c r.c, add32 st.d r.d⟩

/-- The `k` little-endian bytes of `n`. -/
def leBytes (k n : Nat) : List Nat := (List.range k).map fun i => (n >>> (8 * i)) % 256

/-- MD5 padding: a `0x80` byte, zeros to 56 mod 64, then the 64-bit
little-endian bit length. -/
def padMessage (msg : List Nat) : List Nat :=
  let z := (119 - msg.length % 64) % 64
  msg ++ [128] ++ List.replicate z 0 ++ leBytes 8 (8 * msg.length)

def initState : State := ⟨0x67452301, 0xefcdab89, 0x98badcfe, 0x10325476⟩

def digestState (msg : List Nat) : State :=
  let padded := padMessage msg
  (List.range (padded.length / 64)).foldl
    (fun st k => processBlock st ((padded.drop (64 * k)).take 64)) initState

def hexDigitChar (n : Nat) : Char := if n < 10 then Char.ofNat (48 + n) else Char.ofNat (87 + n)

def byteHex (b : Nat) : String := String.mk [hexDigitChar (b / 16), hexDigitChar (b % 16)]

def wordHexLE (w : Nat) : String := String.join ((leBytes 4 w).map byteHex)

/-- The lowercase hex digest of a byte list, as `hexdigest()` returns it. -/
def digest (msg : List Nat) : String :=
  let st := digestState msg
  wordHexLE st.a ++ wordHexLE st.b ++ wordHexLE st.c ++ wordHexLE st.d

end Md5

/-- UTF-8 encoding of one character, as the encode call at line 69
produces. -/
def utf8Bytes (c : Char) : List Nat :=
  let n := c.toNat
  if n < 128 then [n]
  else if n < 2048 then [192 ||| (n >>> 6), 128 ||| (n &&& 63)]
  else if n < 65536 then
    [224 ||| (n >>> 12), 128 ||| ((n >>> 6) &&& 63), 128 ||| (n &&& 63)]
  else
    [240 ||| (n >>> 18), 128 ||| ((n >>> 12) &&& 63), 128 ||| ((n >>> 6) &&& 63),
     128 ||| (n &&& 63)]

def strBytes (s : String) : List Nat := (s.data.map utf8Bytes).flatten

/-- The hex MD5 digest of the UTF-8 encoding of `s`, that is,
`hashlib.md5(s.encode(utf8)).hexdigest()` at line 69. -/
def md5hex (s : String) : String := Md5.digest (strBytes s)

/-! ### Python value model for the keyword arguments (lines 41-61) -/

/-- A value passed as `start_date` / `end_date`: either a `datetime`
(only its calendar date matters to the `strftime` call) or an
already-formatted string. -/
inductive PyDate where
  | dt (y m d : Nat)
  | str (s : String)
  deriving DecidableEq, Repr

def pad2 (n : Nat) : String := if n < 10 then "0" ++ toString n else toString n

def pad4 (n : Nat) : String :=
  if n < 10 then "000" ++ toString n
  else if n < 100 then "00" ++ toString n
  else if n < 1000 then "0" ++ toString n
  else toString n

/-- The rendering a datetime gets from `strftime` with the
year-month-day format used at lines 46 and 49. -/
def strftimeYmd (y m d : Nat) : String := pad4 y ++ "-" ++ pad2 m ++ "-" ++ pad2 d

/-- Lines 44-49: the date keyword or the sentinel, then `strftime`
when the value is a datetime.  A missing key gives `None` and an empty
string is falsy, so both are replaced by the sentinel; a datetime is
always truthy. -/
def normDate (sentinel : String) (v : Option PyDate) : String :=
  match v with
  | none => sentinel
  | some (PyDate.dt y m d) => strftimeYmd y m d
  | some (PyDate.str s) => if s = "" then sentinel else s

/-- How `str.format` renders an optional string at line 64: the value
`None` renders as the four characters of `"None"`. -/
def fmtOptStr : Option String → String
  | none => "None"
  | some s => s

/-- Python `repr` of a string (for values without quotes or escapes):
a single-quote character, the text, a single-quote character. -/
def pyReprStr (s : String) : String :=
  String.singleton (Char.ofNat 39) ++ s ++ String.singleton (Char.ofNat 39)

/-- Python `repr` of a 2-tuple of strings. -/
def pyReprPair (p : String × String) : String :=
  "(" ++ pyReprStr p.1 ++ ", " ++ pyReprStr p.2 ++ ")"

/-- Python `str` of a list of 2-tuples of strings, as fed to
`hashlib.md5(...)` at line 69. -/
def pyReprList (l : List (String × String)) : String :=
  "[" ++ String.intercalate ", " (l.map pyReprPair) ++ "]"

/-- Python tuple comparison on `(field, value)` pairs of strings:
lexicographic on the first component, then the second.  Used by
`query_params.sort()` at line 68. -/
def pairLE (p q : String × String) : Bool :=
  decide (p.1 < q.1) || (decide (p.1 = q.1) && decide (p.2 ≤ q.2))

/-- The keyword arguments of a wrapped call that the key derivation
reads (lines 41-61).  `query_params_must` is a list of dicts, each
dict modelled as its `items()` sequence; `query_params_must_not` is a
list of 2-tuples.  `none` models an absent keyword (or `None`). -/
structure CacheKwargs where
  es_index_name : Option String
  start_date : Option PyDate
  end_date : Option PyDate
  query_params_must : Option (List (List (String × String)))
  query_params_must_not : Option (List (String × String))
  deriving DecidableEq, Repr

/-- Lines 52-61: flatten the must-dicts' items and append the
must-not pairs into one combined `query_params` list.  A non-list
value (`None` / absent) contributes nothing. -/
def flattenQueryParams (must : Option (List (List (String × String))))
    (mustNot : Option (List (String × String))) : List (String × String) :=
  (match must with
   | some groups => groups.flatten
   | none => []) ++
  (match mustNot with
   | some pairs => pairs
   | none => [])

/-- Lines 41-70: the cache file name (without the `.pickle` suffix)
derived from the method name and the keyword arguments. -/
def cacheFname (methodName : String) (kw : CacheKwargs) : String :=
  let start_date := normDate "EmptyStartDate" kw.start_date
  let end_date := normDate "EmptyEndDate" kw.end_date
  let query_params := flattenQueryParams kw.query_params_must kw.query_params_must_not
  let base := methodName ++ "_" ++ fmtOptStr kw.es_index_name ++ "_from_" ++
    start_date ++ "_to_" ++ end_date
  if query_params.length > 0 then
    base ++ "_" ++ md5hex (pyReprList (query_params.mergeSort pairLE))
  else base

/-! ### The wrapper's hit/miss state machine (lines 37-84) -/

/-- An exception escaping `wrapper`: a `pickle.load` failure on a
corrupt entry, an `open`/`pickle.dump` failure on the write, or the
wrapped method's own exception carried unmodified. -/
inductive WrapperError (ε : Type) where
  | unpickling
  | ioWrite
  | fromTarget (e : ε)
  deriving DecidableEq, Repr

/-- The cache directory contents: one entry per cache file name.  A
`none` payload models a file whose bytes `pickle.load` cannot decode
(corrupt or unreadable). -/
abbrev CacheStore (α : Type) := List (String × Option α)

instance {ε α : Type} [DecidableEq ε] [DecidableEq α] : DecidableEq (Except ε α) := fun x y =>
  match x, y with
  | Except.ok a, Except.ok b =>
    if h : a = b then isTrue (h ▸ rfl) else isFalse fun hc => h (by cases hc; rfl)
  | Except.ok _, Except.error _ => isFalse fun hc => Except.noConfusion hc
  | Except.error _, Except.ok _ => isFalse fun hc => Except.noConfusion hc
  | Except.error e, Except.error f =>
    if h : e = f then isTrue (h ▸ rfl) else isFalse fun hc => h (by cases hc; rfl)

/-- What one invocation of `wrapper` produces: the outcome the caller
sees, the resulting cache directory, and how many times the wrapped
method ran. -/
structure InvokeOutcome (ε α : Type) where
  outcome : Except (WrapperError ε) α
  store : CacheStore α
  targetCalls : Nat
  deriving DecidableEq, Repr

/-- Lines 37-84, the body of `cacheable.wrapper`.  `caching_on` is
the process-wide toggle read at line 38; `writeOk` models whether the
`open` call of the write path (line 81) succeeds (on failure
the exception propagates and no entry is left behind); the positional
arguments `args` reach only the wrapped method, never the key
derivation, which reads `kwargs` alone. -/
def wrapper {π ε α : Type} (caching_on : Bool) (writeOk : Bool) (methodName : String)
    (method : π → Except ε α) (args : π) (kw : CacheKwargs)
    (store : CacheStore α) : InvokeOutcome ε α :=
  if !caching_on then
    match method args with
    | Except.ok r => ⟨Except.ok r, store, 1⟩
    | Except.error e => ⟨Except.error (WrapperError.fromTarget e), store, 1⟩
  else
    let cache_fname := cacheFname methodName kw
    match store.lookup cache_fname with
    | some payload =>
      match payload with
      | some r => ⟨Except.ok r, store, 0⟩
      | none => ⟨Except.error WrapperError.unpickling, store, 0⟩
    | none =>
      match method args with
      | Except.error e => ⟨Except.error (WrapperError.fromTarget e), store, 1⟩
      | Except.ok r =>
        if writeOk then ⟨Except.ok r, (cache_fname, some r) :: store, 1⟩
        else ⟨Except.error WrapperError.ioWrite, store, 1⟩

/-! ### Ordering facts about `pairLE` and sorting -/

theorem pairLE_trans (a b c : String × String) (h₁ : pairLE a b) (h₂ : pairLE b c) :
    pairLE a c := by
  simp only [pairLE, Bool.or_eq_true, Bool.and_eq_true, decide_eq_true_eq] at h₁ h₂ ⊢
  rcases h₁ with h₁ | ⟨h₁, h₁v⟩
  · rcases h₂ with h₂ | ⟨h₂, _⟩
    · exact Or.inl (lt_trans h₁ h₂)
    · exact Or.inl (h₂ ▸ h₁)
  · rcases h₂ with h₂ | ⟨h₂, h₂v⟩
    · exact Or.inl (h₁ ▸ h₂)
    · exact Or.inr ⟨h₁.trans h₂, le_trans h₁v h₂v⟩

theorem pairLE_total (a b : String × String) : pairLE a b || pairLE b a := by
  simp only [pairLE, Bool.or_eq_true, Bool.and_eq_true, decide_eq_true_eq]
  rcases lt_trichotomy a.1 b.1 with h | h | h
  · exact Or.inl (Or.inl h)
  · rcases le_total a.2 b.2 with hv | hv
    · exact Or.inl (Or.inr ⟨h, hv⟩)
    · exact Or.inr (Or.inr ⟨h.symm, hv⟩)
  · exact Or.inr (Or.inl h)

theorem pairLE_antisymm (a b : String × String) (h₁ : pairLE a b) (h₂ : pairLE b a) :
    a = b := by
  simp only [pairLE, Bool.or_eq_true, Bool.and_eq_true, decide_eq_true_eq] at h₁ h₂
  rcases h₁ with h₁ | ⟨h₁, h₁v⟩
  · rcases h₂ with h₂ | ⟨h₂, _⟩
    · exact absurd h₂ (lt_asymm h₁)
    · exact absurd h₂.symm (ne_of_lt h₁)
  · rcases h₂ with h₂ | ⟨_, h₂v⟩
    · exact absurd h₁.symm (ne_of_lt h₂)
    · exact Prod.ext h₁ (le_antisymm h₁v h₂v)

/-- Sorting with `pairLE` maps permutation-equal pair lists to the
same sorted list (Python's `list.sort()` canonicalizes order). -/
theorem mergeSort_pairLE_eq_of_perm {l₁ l₂ : List (String × String)} (h : l₁.Perm l₂) :
    l₁.mergeSort pairLE = l₂.mergeSort pairLE := by
  haveI : IsAntisymm (String × String) (fun a b => pairLE a b = true) :=
    ⟨fun a b => pairLE_antisymm a b⟩
  exact List.eq_of_perm_of_sorted
    ((List.mergeSort_perm l₁ pairLE).trans (h.trans (List.mergeSort_perm l₂ pairLE).symm))
    (List.sorted_mergeSort pairLE_trans pairLE_total l₁)
    (List.sorted_mergeSort pairLE_trans pairLE_total l₂)

/-- Key-derivation congruence: equal index names, equal normalized
dates and permutation-equal flattened filter lists give equal keys. -/
theorem cacheFname_congr (m : String) (k₁ k₂ : CacheKwargs)
    (hidx : k₁.es_index_name = k₂.es_index_name)
    (hs : normDate "EmptyStartDate" k₁.start_date = normDate "EmptyStartDate" k₂.start_date)
    (he : normDate "EmptyEndDate" k₁.end_date = normDate "EmptyEndDate" k₂.end_date)
    (hq : (flattenQueryParams k₁.query_params_must k₁.query_params_must_not).Perm
      (flattenQueryParams k₂.query_params_must k₂.query_params_must_not)) :
    cacheFname m k₁ = cacheFname m k₂ := by
  simp only [cacheFname, hidx, hs, he]
  rw [hq.length_eq, mergeSort_pairLE_eq_of_perm hq]

/-- C1: two calls of the cached operation whose keyword parameters are
semantically equivalent — same wrapped function name, same index name,
same normalized start and end dates, and the same flattened multiset
of (field, value) filter pairs regardless of the ordering of pairs or
their grouping into AND-groups — derive the identical cache key. -/
theorem c1_cache_key_deterministic (m : String) (k₁ k₂ : CacheKwargs)
    (hidx : k₁.es_index_name = k₂.es_index_name)
    (hs : normDate "EmptyStartDate" k₁.start_date = normDate "EmptyStartDate" k₂.start_date)
    (he : normDate "EmptyEndDate" k₁.end_date = normDate "EmptyEndDate" k₂.end_date)
    (hq : (flattenQueryParams k₁.query_params_must k₁.query_params_must_not).Perm
      (flattenQueryParams k₂.query_params_must k₂.query_params_must_not)) :
    cacheFname m k₁ = cacheFname m k₂ :=
  cacheFname_congr m k₁ k₂ hidx hs he hq

/-- C1 witness: the spec scenario — same query with the AND-groups in
reversed order (and the start date given as a `datetime` in one call
and a pre-formatted string in the other) yields identical keys. -/
theorem c1_cache_key_deterministic_witness :
    cacheFname "get_df"
      ⟨some "orders", some (PyDate.dt 2024 1 1), some (PyDate.dt 2024 1 31),
        some [[("status", "open")], [("status", "closed")]], none⟩ =
    cacheFname "get_df"
      ⟨some "orders", some (PyDate.str "2024-01-01"), some (PyDate.dt 2024 1 31),
        some [[("status", "closed")], [("status", "open")]], none⟩ :=
  c1_cache_key_deterministic "get_df" _ _ (by decide) (by decide) (by decide) (by decide)

/-- C10: the key does not record whether a (field, value) pair came
from `query_params_must` or `query_params_must_not`: both are
flattened into one combined list before sorting and hashing, so a call
carrying the pairs as positive filters and a call carrying them as
negative filters produce the same key whenever the combined flattened
multisets agree. -/
theorem c10_positive_negative_collapse (m : String) (idx : Option String)
    (sd ed : Option PyDate) (groups : List (List (String × String)))
    (pairs : List (String × String)) (h : groups.flatten.Perm pairs) :
    cacheFname m ⟨idx, sd, ed, some groups, none⟩ =
    cacheFname m ⟨idx, sd, ed, none, some pairs⟩ := by
  refine cacheFname_congr m _ _ rfl rfl rfl ?_
  simpa [flattenQueryParams] using h

/-- C10 witness: one pair passed as a positive filter and the same
pair passed as a negative filter give the same key. -/
theorem c10_positive_negative_collapse_witness :
    cacheFname "get_df" ⟨some "orders", none, none, some [[("status", "open")]], none⟩ =
    cacheFname "get_df" ⟨some "orders", none, none, none, some [("status", "open")]⟩ :=
  c10_positive_negative_collapse "get_df" (some "orders") none none
    [[("status", "open")]] [("status", "open")] (by decide)

/-- C7: the derived key equals
`{method}_{index}_from_{start}_to_{end}`, with a `_{hash}` suffix
appended exactly when the combined flattened filter list is non-empty;
explicitly empty filter lists and omitted filter parameters produce
the same key. -/
theorem c7_key_format (m : String) (idx : Option String) (sd ed : Option PyDate) :
    (cacheFname m ⟨idx, sd, ed, some [], some []⟩ = cacheFname m ⟨idx, sd, ed, none, none⟩) ∧
    (cacheFname m ⟨idx, sd, ed, none, none⟩ =
      m ++ "_" ++ fmtOptStr idx ++ "_from_" ++ normDate "EmptyStartDate" sd ++ "_to_" ++
        normDate "EmptyEndDate" ed) ∧
    (∀ must mustNot, flattenQueryParams must mustNot ≠ [] →
      cacheFname m ⟨idx, sd, ed, must, mustNot⟩ =
        m ++ "_" ++ fmtOptStr idx ++ "_from_" ++ normDate "EmptyStartDate" sd ++ "_to_" ++
          normDate "EmptyEndDate" ed ++ "_" ++
          md5hex (pyReprList ((flattenQueryParams must mustNot).mergeSort pairLE))) := by
  refine ⟨rfl, rfl, ?_⟩
  intro must mustNot h
  simp only [cacheFname]
  rw [if_pos (by simpa using List.length_pos.mpr h)]

/-- C7 witness: the non-empty-filters branch at a concrete input. -/
theorem c7_key_format_witness :
    cacheFname "get_df" ⟨some "orders", none, none, some [[("a", "1")]], none⟩ =
      "get_df" ++ "_" ++ fmtOptStr (some "orders") ++ "_from_" ++
        normDate "EmptyStartDate" none ++ "_to_" ++ normDate "EmptyEndDate" none ++ "_" ++
        md5hex (pyReprList ((flattenQueryParams (some [[("a", "1")]]) none).mergeSort pairLE)) :=
  (c7_key_format "get_df" (some "orders") none none).2.2 (some [[("a", "1")]]) none (by decide)

/-- C8 counterexample: the derived key is not free of path-separator
characters — an index name containing a slash puts that slash into the
key verbatim (`Char.ofNat 47` is the forward slash). -/
theorem c8_counterexample :
    Char.ofNat 47 ∈ (cacheFname "get_df" ⟨some "logs/app", none, none, none, none⟩).data := by
  decide

/-- C8 amended: no sanitization is performed — the method name and the
index name are interpolated into the key verbatim, so any
path-separator character contained in the index name appears in the
derived key. -/
theorem c8_no_sanitization (m r : String) (kw : CacheKwargs)
    (hidx : kw.es_index_name = some r) (hc : Char.ofNat 47 ∈ r.data) :
    Char.ofNat 47 ∈ (cacheFname m kw).data := by
  simp only [cacheFname, hidx, fmtOptStr]
  split
  · simp [String.data_append, List.mem_append, hc]
  · simp [String.data_append, List.mem_append, hc]

/-- C8 amended witness. -/
theorem c8_no_sanitization_witness :
    Char.ofNat 47 ∈ (cacheFname "get_df" ⟨some "a/b", none, none, some [[("a", "1")]], none⟩).data :=
  c8_no_sanitization "get_df" "a/b" _ rfl (by decide)

/-- C9: the cache key is computed exclusively from keyword arguments —
with the index name and dates absent from the keyword dictionary
(e.g., passed positionally), the key uses `"None"` for the index and
the `EmptyStartDate`/`EmptyEndDate` sentinels, independently of the
positional values; consequently an entry stored under that key serves
every such call on the hit path regardless of the positional
arguments. -/
theorem c9_key_from_kwargs_only {π ε α : Type} (m : String) (kw : CacheKwargs)
    (hidx : kw.es_index_name = none) (hs : kw.start_date = none) (he : kw.end_date = none)
    (hq : flattenQueryParams kw.query_params_must kw.query_params_must_not = []) :
    cacheFname m kw =
      m ++ "_" ++ "None" ++ "_from_" ++ "EmptyStartDate" ++ "_to_" ++ "EmptyEndDate" ∧
    ∀ (writeOk : Bool) (method : π → Except ε α) (args : π) (store : CacheStore α) (r : α),
      store.lookup (cacheFname m kw) = some (some r) →
      wrapper true writeOk m method args kw store = ⟨Except.ok r, store, 0⟩ := by
  constructor
  · simp [cacheFname, hidx, hs, he, hq, normDate, fmtOptStr]
  · intro writeOk method args store r hh
    simp [wrapper, hh]

/-- C9 witness: a call with every identifying parameter passed
positionally (so absent from the keyword dictionary) is served from
the `None`/sentinel key. -/
theorem c9_key_from_kwargs_only_witness :
    cacheFname "get_df" ⟨none, none, none, none, none⟩ =
      "get_df" ++ "_" ++ "None" ++ "_from_" ++ "EmptyStartDate" ++ "_to_" ++ "EmptyEndDate" ∧
    wrapper true true "get_df" (fun _ : Unit => (Except.ok 5 : Except Unit Nat)) ()
      ⟨none, none, none, none, none⟩
      [(cacheFname "get_df" ⟨none, none, none, none, none⟩, some 5)] =
    ⟨Except.ok 5, [(cacheFname "get_df" ⟨none, none, none, none, none⟩, some 5)], 0⟩ := by
  have h := c9_key_from_kwargs_only (π := Unit) (ε := Unit) (α := Nat) "get_df"
    ⟨none, none, none, none, none⟩ rfl rfl rfl rfl
  exact ⟨h.1, h.2 true (fun _ => Except.ok 5) ()
    [(cacheFname "get_df" ⟨none, none, none, none, none⟩, some 5)] 5 (by decide)⟩

/-- C5: with the global caching toggle off, the wrapped method is
invoked once and its result returned unmodified (a raised exception is
carried through as-is), independent of the store, which is returned
entirely unchanged — no key is computed and no entry is created. -/
theorem c5_bypass_when_disabled {π ε α : Type} (writeOk : Bool) (m : String)
    (method : π → Except ε α) (args : π) (kw : CacheKwargs) (store : CacheStore α) :
    wrapper false writeOk m method args kw store =
      ⟨match method args with
        | Except.ok r => Except.ok r
        | Except.error e => Except.error (WrapperError.fromTarget e), store, 1⟩ := by
  cases h : method args <;> simp [wrapper, h]

/-- C2: with caching on, a working store write and an initially
absent entry, two invocations with the same parameters run the wrapped
method exactly once (on the first call); the second call returns the
value stored by the first without invoking the method, and leaves the
store — in particular the stored entry — untouched. -/
theorem c2_write_once {π ε α : Type} (m : String) (method : π → Except ε α) (args : π)
    (kw : CacheKwargs) (store₀ : CacheStore α) (r : α)
    (hmiss : store₀.lookup (cacheFname m kw) = none)
    (htgt : method args = Except.ok r) :
    (wrapper true true m method args kw store₀).outcome = Except.ok r ∧
    (wrapper true true m method args kw store₀).targetCalls = 1 ∧
    (wrapper true true m method args kw store₀).store.lookup (cacheFname m kw) =
      some (some r) ∧
    (wrapper true true m method args kw
      (wrapper true true m method args kw store₀).store).outcome = Except.ok r ∧
    (wrapper true true m method args kw
      (wrapper true true m method args kw store₀).store).targetCalls = 0 ∧
    (wrapper true true m method args kw
      (wrapper true true m method args kw store₀).store).store =
      (wrapper true true m method args kw store₀).store := by
  have h1 : wrapper true true m method args kw store₀ =
      ⟨Except.ok r, (cacheFname m kw, some r) :: store₀, 1⟩ := by
    simp [wrapper, hmiss, htgt]
  have hl : ((cacheFname m kw, some r) :: store₀).lookup (cacheFname m kw) =
      some (some r) := by
    simp [List.lookup]
  have h2 : wrapper true true m method args kw ((cacheFname m kw, some r) :: store₀) =
      ⟨Except.ok r, (cacheFname m kw, some r) :: store₀, 0⟩ := by
    simp [wrapper, hl]
  simp [h1, h2, hl]

/-- C2 witness: two concrete invocations over an empty store. -/
theorem c2_write_once_witness :
    (wrapper true true "get_df" (fun _ : Unit => (Except.ok 5 : Except Unit Nat)) ()
      ⟨some "orders", none, none, none, none⟩ []).outcome = Except.ok 5 ∧
    (wrapper true true "get_df" (fun _ : Unit => (Except.ok 5 : Except Unit Nat)) ()
      ⟨some "orders", none, none, none, none⟩ []).targetCalls = 1 ∧
    (wrapper true true "get_df" (fun _ : Unit => (Except.ok 5 : Except Unit Nat)) ()
      ⟨some "orders", none, none, none, none⟩ []).store.lookup
        (cacheFname "get_df" ⟨some "orders", none, none, none, none⟩) = some (some 5) ∧
    (wrapper true true "get_df" (fun _ : Unit => (Except.ok 5 : Except Unit Nat)) ()
      ⟨some "orders", none, none, none, none⟩
      (wrapper true true "get_df" (fun _ : Unit => (Except.ok 5 : Except Unit Nat)) ()
        ⟨some "orders", none, none, none, none⟩ []).store).outcome = Except.ok 5 ∧
    (wrapper true true "get_df" (fun _ : Unit => (Except.ok 5 : Except Unit Nat)) ()
      ⟨some "orders", none, none, none, none⟩
      (wrapper true true "get_df" (fun _ : Unit => (Except.ok 5 : Except Unit Nat)) ()
        ⟨some "orders", none, none, none, none⟩ []).store).targetCalls = 0 ∧
    (wrapper true true "get_df" (fun _ : Unit => (Except.ok 5 : Except Unit Nat)) ()
      ⟨some "orders", none, none, none, none⟩
      (wrapper true true "get_df" (fun _ : Unit => (Except.ok 5 : Except Unit Nat)) ()
        ⟨some "orders", none, none, none, none⟩ []).store).store =
      (wrapper true true "get_df" (fun _ : Unit => (Except.ok 5 : Except Unit Nat)) ()
        ⟨some "orders", none, none, none, none⟩ []).store :=
  c2_write_once "get_df" (fun _ => Except.ok 5) () ⟨some "orders", none, none, none, none⟩
    [] 5 (by decide) rfl

/-- C3 counterexample: with an empty store and a wrapped method
returning 42, a failing cache write makes the whole invocation fail —
the already-computed 42 is not returned to the caller. -/
theorem c3_counterexample :
    (wrapper true false "get_df" (fun _ : Unit => (Except.ok 42 : Except Unit Nat)) ()
      ⟨none, none, none, none, none⟩ []).outcome ≠ Except.ok 42 := by
  decide

/-- C3 amended: on the miss path, when the wrapped method returns
successfully but opening the cache file for writing fails, the write
failure propagates to the caller in place of the computed result; the
method still ran once and no entry was stored. -/
theorem c3_write_failure_propagates {π ε α : Type} (m : String) (method : π → Except ε α)
    (args : π) (kw : CacheKwargs) (store : CacheStore α) (r : α)
    (hmiss : store.lookup (cacheFname m kw) = none)
    (htgt : method args = Except.ok r) :
    wrapper true false m method args kw store =
      ⟨Except.error WrapperError.ioWrite, store, 1⟩ := by
  simp [wrapper, hmiss, htgt]

/-- C3 amended witness. -/
theorem c3_write_failure_propagates_witness :
    wrapper true false "get_df" (fun _ : Unit => (Except.ok 42 : Except Unit Nat)) ()
      ⟨none, none, none, none, none⟩ [] =
    ⟨Except.error WrapperError.ioWrite, [], 1⟩ :=
  c3_write_failure_propagates "get_df" (fun _ => Except.ok 42) ()
    ⟨none, none, none, none, none⟩ [] 42 (by decide) rfl

/-- C4 counterexample: with a corrupt entry stored under the derived
key, the invocation is not treated as a miss — the wrapped method is
never invoked (zero calls) and the invocation fails instead of
succeeding with the recomputed 7. -/
theorem c4_counterexample :
    (wrapper true true "get_df" (fun _ : Unit => (Except.ok 7 : Except Unit Nat)) ()
      ⟨none, none, none, none, none⟩
      [(cacheFname "get_df" ⟨none, none, none, none, none⟩, none)]).targetCalls = 0 ∧
    (wrapper true true "get_df" (fun _ : Unit => (Except.ok 7 : Except Unit Nat)) ()
      ⟨none, none, none, none, none⟩
      [(cacheFname "get_df" ⟨none, none, none, none, none⟩, none)]).outcome ≠
      Except.ok 7 := by
  decide

/-- C4 amended: when the entry stored under the derived key exists but
its contents are unreadable or corrupt, the unpickling failure
propagates to the caller: the wrapped method is not invoked and the
store is left unchanged. -/
theorem c4_corrupt_entry_fails {π ε α : Type} (writeOk : Bool) (m : String)
    (method : π → Except ε α) (args : π) (kw : CacheKwargs) (store : CacheStore α)
    (hcorrupt : store.lookup (cacheFname m kw) = some none) :
    wrapper true writeOk m method args kw store =
      ⟨Except.error WrapperError.unpickling, store, 0⟩ := by
  simp [wrapper, hcorrupt]

/-- C4 amended witness. -/
theorem c4_corrupt_entry_fails_witness :
    wrapper true true "get_df" (fun _ : Unit => (Except.ok 7 : Except Unit Nat)) ()
      ⟨none, none, none, none, none⟩
      [(cacheFname "get_df" ⟨none, none, none, none, none⟩, none)] =
    ⟨Except.error WrapperError.unpickling,
      [(cacheFname "get_df" ⟨none, none, none, none, none⟩, none)], 0⟩ :=
  c4_corrupt_entry_fails true "get_df" (fun _ => Except.ok 7) ()
    ⟨none, none, none, none, none⟩ _ (by decide)

/-- C6: on the miss path a failure of the wrapped method propagates to
the caller unmodified and the store is left unchanged (no entry is
written); a subsequent invocation with the same parameters — over that
unchanged store — invokes the wrapped method again rather than being
served from a cached entry, and succeeds when the method now does. -/
theorem c6_target_failure_not_cached {π ε α : Type} (writeOk : Bool) (m : String)
    (method : π → Except ε α) (args : π) (kw : CacheKwargs) (store : CacheStore α) (e : ε)
    (hmiss : store.lookup (cacheFname m kw) = none)
    (htgt : method args = Except.error e) :
    wrapper true writeOk m method args kw store =
      ⟨Except.error (WrapperError.fromTarget e), store, 1⟩ ∧
    ∀ (method₂ : π → Except ε α) (r : α), method₂ args = Except.ok r →
      (wrapper true true m method₂ args kw store).targetCalls = 1 ∧
      (wrapper true true m method₂ args kw store).outcome = Except.ok r := by
  constructor
  · simp [wrapper, hmiss, htgt]
  · intro method₂ r htgt₂
    simp [wrapper, hmiss, htgt₂]

/-- C6 witness: a method that raises on the first call, then a second
invocation whose method succeeds and runs. -/
theorem c6_target_failure_not_cached_witness :
    wrapper true true "get_df" (fun _ : Unit => (Except.error 3 : Except Nat Nat)) ()
      ⟨some "orders", none, none, none, none⟩ [] =
      ⟨Except.error (WrapperError.fromTarget 3), [], 1⟩ ∧
    (wrapper true true "get_df" (fun _ : Unit => (Except.ok 9 : Except Nat Nat)) ()
      ⟨some "orders", none, none, none, none⟩ []).targetCalls = 1 ∧
    (wrapper true true "get_df" (fun _ : Unit => (Except.ok 9 : Except Nat Nat)) ()
      ⟨some "orders", none, none, none, none⟩ []).outcome = Except.ok 9 := by
  have h := c6_target_failure_not_cached (π := Unit) true "get_df"
    (fun _ => (Except.error 3 : Except Nat Nat)) () ⟨some "orders", none, none, none, none⟩
    [] 3 (by decide) rfl
  exact ⟨h.1, h.2 (fun _ => Except.ok 9) 9 rfl⟩

end EsConnector
